import Mathlib

/-!
Shallow embedding of the Timer/Reminder scheduling engine of FiresideBot,
found in cogs/reminders.py.  Timestamps are modelled as integer numbers of
seconds; the database table `reminders` is modelled as a list of rows kept in
insertion order together with the next id the store will assign, so that
store-assigned ids are unique and ascending in insertion order.  The parts of
the engine the claims are about — Timer.__eq__, get_active_timer,
wait_for_active_timers, call_timer, dispatch_timers, short_timer_optimisation,
create_timer and the reminder cancel command — are translated below; the
observable effects of a piece of asynchronous code (sleeps, row deletions,
event-bus publications) are recorded as explicit lists of actions in program
order.
-/

namespace Fireside

/-- JSON-serializable payload values carried in a timer's `args`/`kwargs`.
The scheduler treats them as opaque.  `conn` stands for an asyncpg connection
object, which callers may smuggle through the `connection` keyword argument of
`create_timer`. -/
inductive Value where
  | int : Int → Value
  | str : String → Value
  | conn : Nat → Value
deriving DecidableEq, Repr

/-- The text rendering PostgreSQL's `#>>` operator produces for a payload
element, used by the cancel command's predicate on the first `args` entry. -/
def Value.asText : Value → String
  | .int i => toString i
  | .str s => s
  | .conn n => toString n

/-- The in-memory `Timer` object of cogs/reminders.py: id is `none` for
ephemeral (never persisted) timers, `some i` once the store assigned id `i`. -/
structure Timer where
  id : Option Nat
  event : String
  created : Int
  expires : Int
  args : List Value
  kwargs : List (String × Value)
deriving DecidableEq, Repr

/-- `Timer.temporary`: builds a pseudo-record with `id = None`. -/
def Timer.temporary (expires created : Int) (event : String)
    (args : List Value) (kwargs : List (String × Value)) : Timer :=
  { id := none, event := event, created := created, expires := expires,
    args := args, kwargs := kwargs }

/-- `Timer.__eq__`: `self.id == other.id` (between two Timer objects; a
non-Timer `other` without an `id` attribute raises AttributeError, caught and
turned into `False`, which this Timer-to-Timer embedding does not need). -/
def Timer.eq (a b : Timer) : Bool := a.id == b.id

/-- One row of the `reminders` table. -/
structure Row where
  id : Nat
  event : String
  created : Int
  expires : Int
  args : List Value
  kwargs : List (String × Value)
deriving DecidableEq, Repr

/-- Reconstructing a `Timer` object from a fetched row, as `Timer.__init__`
does. -/
def Row.toTimer (r : Row) : Timer :=
  { id := some r.id, event := r.event, created := r.created, expires := r.expires,
    args := r.args, kwargs := r.kwargs }

/-- The persistent `reminders` table: rows in insertion order plus the next
primary key the store will assign. -/
structure Store where
  rows : List Row
  nextId : Nat
deriving DecidableEq, Repr

/-- `INSERT INTO reminders (event, extra, expires) VALUES ... RETURNING id`
(the `created` column defaults to the current UTC time). -/
def Store.insert (s : Store) (event : String) (expires : Int)
    (args : List Value) (kwargs : List (String × Value)) (now : Int) :
    Store × Nat :=
  ({ rows := s.rows ++
       [{ id := s.nextId, event := event, created := now, expires := expires,
          args := args, kwargs := kwargs }],
     nextId := s.nextId + 1 },
   s.nextId)

/-- `DELETE FROM reminders WHERE id=$1`; a SQL NULL id matches no row. -/
def Store.deleteById (s : Store) (oid : Option Nat) : Store :=
  { s with rows := s.rows.filter (fun r => !(some r.id == oid)) }

/-- The rows the `get_active_timer` query ranges over:
`WHERE expires < (CURRENT_DATE + $1::interval)`.  The right-hand side is
abstracted as a single `horizon` timestamp. -/
def withinHorizon (s : Store) (horizon : Int) : List Row :=
  s.rows.filter (fun r => decide (r.expires < horizon))

/-- The possible results of `get_active_timer`'s query
`SELECT * FROM reminders WHERE expires < (CURRENT_DATE + $1::interval)
ORDER BY expires LIMIT 1`: any row within the horizon whose `expires` is
minimal.  The ORDER BY clause sorts by `expires` alone — it contains no `id`
tie-break — so among rows tied on the smallest `expires` the returned row is
not constrained by the query. -/
def activeTimerResult (s : Store) (horizon : Int) (r : Row) : Prop :=
  r ∈ withinHorizon s horizon ∧
    ∀ q ∈ withinHorizon s horizon, r.expires ≤ q.expires

instance (s : Store) (horizon : Int) (r : Row) :
    Decidable (activeTimerResult s horizon r) := by
  unfold activeTimerResult
  infer_instance

/-- The mutable scheduling state of the `Reminder` cog: the store it talks
to, the `_have_data` asyncio.Event (a single bit) and the `_current_timer`
candidate reference. -/
structure SchedState where
  store : Store
  haveData : Bool
  currentTimer : Option Timer
deriving DecidableEq, Repr

/-- Observable effects of the engine, recorded in program order:
an `asyncio.sleep` of a given number of seconds, the deletion of a row by id,
and a `bot.dispatch` publication on the event bus. -/
inductive Action where
  | sleep (seconds : Int)
  | deleteRow (oid : Option Nat)
  | publish (eventName : String) (t : Timer)
deriving DecidableEq, Repr

/-- `short_timer_optimisation(seconds, timer)`: the fire-and-forget task
sleeps for the delay, then publishes the timer's completion directly. -/
def short_timer_optimisation (seconds : Int) (t : Timer) : List Action :=
  [Action.sleep seconds, Action.publish (t.event ++ "_timer_complete") t]

/-- `call_timer(timer)`: deletes the timer's row, then dispatches
`{event}_timer_complete`; returns the store after the delete and the emitted
actions in program order. -/
def call_timer (s : Store) (t : Timer) : Store × List Action :=
  (s.deleteById t.id,
   [Action.deleteRow t.id, Action.publish (t.event ++ "_timer_complete") t])

/-- The body of one `dispatch_timers` iteration once the candidate `timer`
has been fetched at time `now`: `if timer.expires >= now` it sleeps for
`(timer.expires - now).total_seconds()`, then `call_timer` runs. -/
def dispatchStep (s : Store) (now : Int) (timer : Timer) :
    List Action × Store :=
  let pre : List Action :=
    if timer.expires ≥ now then [Action.sleep (timer.expires - now)] else []
  let ct := call_timer s timer
  (pre ++ ct.2, ct.1)

/-- The two stimuli that could conceivably end the idle block in
`wait_for_active_timers`: the `_have_data` event being set by a producer, or
a poll-timeout horizon elapsing. -/
inductive WaitStimulus where
  | signalSet
  | pollTimeout
deriving DecidableEq, Repr

/-- When `await self._have_data.wait()` resumes: exactly when the event has
been set.  The source passes no timeout to the wait, so the mere passage of
time never resumes it. -/
def eventWaitResumes : WaitStimulus → Bool
  | .signalSet => true
  | .pollTimeout => false

/-- The outcome of one call to `wait_for_active_timers`, parametrised by the
results `q1` (first query) and `q2` (re-query after the block) that the
nondeterministic `get_active_timer` query produced. -/
structure WaitCall where
  midState : SchedState
  blocks : Bool
  result : Option Row
  retried : Bool
deriving DecidableEq, Repr

/-- `wait_for_active_timers`: if the first query finds a timer, set
`_have_data` and return it without blocking; otherwise clear `_have_data`,
clear `_current_timer`, block on `_have_data.wait()` and re-query. -/
def wait_for_active_timers (st : SchedState) (q1 q2 : Option Row) : WaitCall :=
  match q1 with
  | some r =>
    { midState := { st with haveData := true }, blocks := false,
      result := some r, retried := false }
  | none =>
    { midState := { st with haveData := false, currentTimer := none },
      blocks := true, result := q2, retried := true }

/-- The keyword argument stored under key `k`, if any (Python keyword
arguments have unique keys). -/
def lookupKw (k : String) (kwargs : List (String × Value)) : Option Value :=
  (kwargs.find? (fun p => p.1 == k)).map Prod.snd

/-- `kwargs.pop(k)`: the keyword arguments with key `k` removed. -/
def popKw (k : String) (kwargs : List (String × Value)) :
    List (String × Value) :=
  kwargs.filter (fun p => !(p.1 == k))

/-- Everything one `create_timer` call produces: the scheduler state after
the call, the Timer handle returned to the caller, the actions of the
fire-and-forget short task when one was spawned, whether the loop task was
cancelled and restarted, and the connection the insert used (`none` means the
default `bot.pool`). -/
structure CreateResult where
  state : SchedState
  returned : Timer
  spawned : Option (List Action)
  restarted : Bool
  usedConnection : Option Value
deriving DecidableEq, Repr

/-- `create_timer(when, event, *args, **kwargs)` at current time `now`:
pops `connection` from the kwargs, builds a temporary Timer, short-circuits
when the delay is at most 60 seconds, otherwise inserts a row, records its
id on the handle, sets `_have_data` when the delay is within the 40-day cap,
and cancels/restarts the loop task when a current candidate exists and the
new deadline is strictly earlier. -/
def create_timer (st : SchedState) (now whenT : Int) (event : String)
    (args : List Value) (kwargs0 : List (String × Value)) : CreateResult :=
  let conn := lookupKw "connection" kwargs0
  let kwargs := popKw "connection" kwargs0
  let timer := Timer.temporary whenT now event args kwargs
  let delta := whenT - now
  if delta ≤ 60 then
    { state := st, returned := timer,
      spawned := some (short_timer_optimisation delta timer),
      restarted := false, usedConnection := conn }
  else
    let ins := st.store.insert event whenT args kwargs now
    let timer2 := { timer with id := some ins.2 }
    let haveData2 := if delta ≤ 86400 * 40 then true else st.haveData
    let restarted :=
      match st.currentTimer with
      | some cur => decide (whenT < cur.expires)
      | none => false
    { state := { st with store := ins.1, haveData := haveData2 },
      returned := timer2, spawned := none,
      restarted := restarted, usedConnection := conn }

/-- The row predicate of the cancel command's
`DELETE FROM reminders WHERE id = $1 AND event = 'reminder'
AND extra #>> '\x7bargs,0\x7d' = $2`. -/
def rowMatchesCancel (rid : Nat) (author : String) (r : Row) : Bool :=
  r.id == rid && r.event == "reminder" &&
    ((r.args.head?.map Value.asText) == some author)

/-- What one invocation of the `reminder cancel` command produces: the store
after the DELETE, the number of rows it removed, the message sent back to the
invoker, and whether the loop task was cancelled and restarted. -/
structure CancelResult where
  store : Store
  deletedCount : Nat
  message : String
  restarted : Bool
deriving DecidableEq, Repr

/-- `reminder_cancel(ctx, id)`: runs the DELETE; when its status is
`DELETE 0` it reports failure and returns; otherwise it restarts the loop
task when the current candidate has that id, and reports success. -/
def reminder_cancel (st : SchedState) (author : String) (rid : Nat) :
    CancelResult :=
  let kept := st.store.rows.filter (fun r => !(rowMatchesCancel rid author r))
  let count := st.store.rows.length - kept.length
  let store2 : Store := { st.store with rows := kept }
  if count == 0 then
    { store := store2, deletedCount := 0,
      message := "Could not delete any reminders with that ID.",
      restarted := false }
  else
    let restarted :=
      match st.currentTimer with
      | some cur => cur.id == some rid
      | none => false
    { store := store2, deletedCount := count,
      message := "Successfully deleted reminder.", restarted := restarted }

/-! Concrete values used by counterexamples and witnesses. -/

/-- A store row with id 1. -/
def exRowA : Row :=
  { id := 1, event := "reminder", created := 0, expires := 50,
    args := [Value.str "7"], kwargs := [] }

/-- A store row with id 2 and the same `expires` as `exRowA`. -/
def exRowB : Row :=
  { id := 2, event := "reminder", created := 0, expires := 50,
    args := [Value.str "7"], kwargs := [] }

/-- A store holding two rows tied on `expires`. -/
def exStoreTie : Store := { rows := [exRowA, exRowB], nextId := 3 }

/-- A candidate timer the loop is currently waiting on. -/
def exCur : Timer :=
  { id := some 4, event := "reminder", created := 0, expires := 1000,
    args := [], kwargs := [] }

/-- A scheduler state holding `exCur` as current candidate. -/
def exStW : SchedState :=
  { store := exStoreTie, haveData := true, currentTimer := some exCur }

/-- A persisted timer whose deadline is exactly the current instant in the
C8 counterexample. -/
def exDue : Timer :=
  { id := some 5, event := "reminder", created := 0, expires := 7,
    args := [], kwargs := [] }

/-- Two ephemeral timers, both with `id = None`. -/
def exNoneA : Timer := Timer.temporary 10 0 "reminder" []  []

/-- Second ephemeral timer with `id = None`. -/
def exNoneB : Timer := Timer.temporary 20 0 "punish" []  []

/-- C1: with a current candidate held and a new timer persisted (delay above
the 60-second short-circuit cut-off), `create_timer` cancels and restarts the
loop task if and only if the new deadline is strictly earlier than the
candidate's `expires`; a deadline equal to or later than the candidate's
leaves the running task untouched. -/
theorem C1_preemption_iff (st : SchedState) (now whenT : Int) (event : String)
    (args : List Value) (kwargs0 : List (String × Value)) (cur : Timer)
    (hlong : 60 < whenT - now) (hcur : st.currentTimer = some cur) :
    (create_timer st now whenT event args kwargs0).restarted = true ↔
      whenT < cur.expires := by
  have hnot : ¬ (whenT - now ≤ 60) := by omega
  simp [create_timer, hnot, hcur]

/-- Closed instance of `C1_preemption_iff` at a concrete state. -/
theorem C1_preemption_iff_witness :
    (create_timer exStW 0 100 "reminder" [] []).restarted = true ↔
      (100 : Int) < exCur.expires :=
  C1_preemption_iff exStW 0 100 "reminder" [] [] exCur (by decide) rfl

/-- C2 counterexample: in a store where rows 1 and 2 are tied on the smallest
`expires`, the query underlying `get_active_timer` (ORDER BY expires LIMIT 1,
with no id tie-break) may return the row with id 2 even though the tied row
with id 1 has the smaller store-assigned id, so the earliest-timer query does
not deterministically return the tied row with the smallest id. -/
theorem C2_counterexample :
    activeTimerResult exStoreTie 100 exRowB ∧
    activeTimerResult exStoreTie 100 exRowA ∧
    exRowA.expires = exRowB.expires ∧ exRowA.id < exRowB.id := by
  decide

/-- C2 (amended): the earliest-timer query is deterministic in the deadline
but not in the row: any two possible results of `get_active_timer` on the
same store and horizon have equal `expires`, while ties on that smallest
`expires` are not broken by id (any tied row may be returned). -/
theorem C2_amended (s : Store) (horizon : Int) (r q : Row)
    (hr : activeTimerResult s horizon r) (hq : activeTimerResult s horizon q) :
    r.expires = q.expires :=
  le_antisymm (hr.2 q hq.1) (hq.2 r hr.1)

/-- Closed instance of `C2_amended` on the tied store. -/
theorem C2_amended_witness : exRowA.expires = exRowB.expires :=
  C2_amended exStoreTie 100 exRowA exRowB (by decide) (by decide)

/-- C3: dispatching a persisted timer emits the row deletion strictly before
the `{event}_timer_complete` publication, and at the moment of publication
the timer's row is gone from the store — in particular no later
earliest-timer query can return a row with that id, so the timer cannot be
redispatched. -/
theorem C3_delete_before_publish (s : Store) (t : Timer) (i : Nat)
    (hid : t.id = some i) :
    (call_timer s t).2 =
      [Action.deleteRow (some i),
       Action.publish (t.event ++ "_timer_complete") t] ∧
    (∀ r ∈ (call_timer s t).1.rows, r.id ≠ i) ∧
    (∀ horizon r, activeTimerResult (call_timer s t).1 horizon r → r.id ≠ i) := by
  refine ⟨by simp [call_timer, hid], ?_, ?_⟩
  · intro r hr
    have hmem := List.of_mem_filter hr
    simp [hid] at hmem
    exact hmem
  · intro horizon r hres
    have hr : r ∈ (call_timer s t).1.rows := List.mem_of_mem_filter hres.1
    have hmem := List.of_mem_filter hr
    simp [hid] at hmem
    exact hmem

/-- Closed instance of `C3_delete_before_publish` for the candidate `exCur`. -/
theorem C3_delete_before_publish_witness :
    (call_timer exStoreTie exCur).2 =
      [Action.deleteRow (some 4),
       Action.publish ("reminder" ++ "_timer_complete") exCur] ∧
    (∀ r ∈ (call_timer exStoreTie exCur).1.rows, r.id ≠ 4) ∧
    (∀ horizon r, activeTimerResult (call_timer exStoreTie exCur).1 horizon r →
      r.id ≠ 4) :=
  C3_delete_before_publish exStoreTie exCur 4 rfl

/-- C4 counterexample: with an empty query result the loop clears state and
blocks, but the block is not ended by the elapse of any secondary poll
horizon — `_have_data.wait()` carries no timeout and resumes only once the
signal is set — so the claimed time-based wakeup does not exist. -/
theorem C4_counterexample :
    (wait_for_active_timers exStW none none).blocks = true ∧
    eventWaitResumes WaitStimulus.pollTimeout = false := by
  decide

/-- C4 (amended): when the store query finds no pending timer within the
horizon, the loop clears the data-available signal, clears the current
candidate and blocks; the block ends, and the query is retried, exactly when
a new timer is created somewhere in the system and sets the signal — there is
no time-based secondary wakeup. -/
theorem C4_amended (st : SchedState) (q2 : Option Row) :
    (wait_for_active_timers st none q2).midState.haveData = false ∧
    (wait_for_active_timers st none q2).midState.currentTimer = none ∧
    (wait_for_active_timers st none q2).blocks = true ∧
    (wait_for_active_timers st none q2).retried = true ∧
    (∀ stim, eventWaitResumes stim = true ↔ stim = WaitStimulus.signalSet) := by
  refine ⟨rfl, rfl, rfl, rfl, ?_⟩
  intro stim
  cases stim <;> simp [eventWaitResumes]

/-- C5 counterexample: two distinct ephemeral handles, both with `id = None`,
compare equal under `Timer.__eq__` (None == None is True in the source), and
such a handle also compares equal to itself — contradicting the claim that a
None-id handle is unequal to everything. -/
theorem C5_counterexample :
    exNoneA.id = none ∧ exNoneB.id = none ∧
    Timer.eq exNoneA exNoneB = true ∧ Timer.eq exNoneA exNoneA = true := by
  decide

/-- C5 (amended): between Timer handles, `Timer.__eq__` is exactly equality
of ids — two handles are equal if and only if their `id` fields are equal; in
particular any two handles with `id = None` are equal to each other and to
themselves.  (Comparison against an object with no id attribute yields False
via the AttributeError branch.) -/
theorem C5_amended (a b : Timer) : Timer.eq a b = true ↔ a.id = b.id := by
  simp [Timer.eq]

/-- C6: a `create_timer` call whose delay is at most 60 seconds leaves the
scheduler state (store, signal and candidate) completely unchanged, returns a
handle with `id = None`, and spawns an independent delayed task that sleeps
for the delay and then publishes `{event}_timer_complete` directly, without
involving the dispatch loop. -/
theorem C6_short_circuit (st : SchedState) (now whenT : Int) (event : String)
    (args : List Value) (kwargs0 : List (String × Value))
    (hshort : whenT - now ≤ 60) :
    (create_timer st now whenT event args kwargs0).state = st ∧
    (create_timer st now whenT event args kwargs0).returned.id = none ∧
    (create_timer st now whenT event args kwargs0).spawned =
      some [Action.sleep (whenT - now),
            Action.publish (event ++ "_timer_complete")
              (create_timer st now whenT event args kwargs0).returned] := by
  simp [create_timer, hshort, short_timer_optimisation, Timer.temporary]

/-- Closed instance of `C6_short_circuit` for a 30-second delay. -/
theorem C6_short_circuit_witness :
    (create_timer exStW 0 30 "punish" [Value.int 99] []).state = exStW ∧
    (create_timer exStW 0 30 "punish" [Value.int 99] []).returned.id = none ∧
    (create_timer exStW 0 30 "punish" [Value.int 99] []).spawned =
      some [Action.sleep ((30 : Int) - 0),
            Action.publish ("punish" ++ "_timer_complete")
              (create_timer exStW 0 30 "punish" [Value.int 99] []).returned] :=
  C6_short_circuit exStW 0 30 "punish" [Value.int 99] [] (by decide)

/-- The store a `reminder cancel` invocation leaves behind: the rows that do
not match the DELETE predicate (identical in both branches of the source). -/
theorem reminder_cancel_store (st : SchedState) (author : String) (rid : Nat) :
    (reminder_cancel st author rid).store =
      { st.store with
        rows := st.store.rows.filter
          (fun r => !(rowMatchesCancel rid author r)) } := by
  by_cases hc : (st.store.rows.length -
      (st.store.rows.filter (fun r => !(rowMatchesCancel rid author r))).length
        == 0) = true
  · simp [reminder_cancel, hc]
  · simp [reminder_cancel, hc]

/-- C7: cancelling an id that matches no stored row is a no-op that reports
failure: the store is unchanged, the command answers with the
could-not-delete message, zero rows are counted and the loop task is not
restarted; consequently cancelling the same id twice is safe — whatever the
first call did, the second call removes nothing and reports the
could-not-delete message. -/
theorem C7_cancel_missing (st : SchedState) (author : String) (rid : Nat) :
    ((∀ r ∈ st.store.rows, rowMatchesCancel rid author r = false) →
      reminder_cancel st author rid =
        { store := st.store, deletedCount := 0,
          message := "Could not delete any reminders with that ID.",
          restarted := false }) ∧
    (reminder_cancel { st with store := (reminder_cancel st author rid).store }
        author rid).deletedCount = 0 ∧
    (reminder_cancel { st with store := (reminder_cancel st author rid).store }
        author rid).message =
      "Could not delete any reminders with that ID." := by
  have hsnd : ∀ r ∈ (reminder_cancel st author rid).store.rows,
      rowMatchesCancel rid author r = false := by
    intro r hr
    rw [reminder_cancel_store] at hr
    have := List.of_mem_filter hr
    simpa using this
  have key : ∀ s2 : Store,
      (∀ r ∈ s2.rows, rowMatchesCancel rid author r = false) →
      (reminder_cancel { st with store := s2 } author rid).deletedCount = 0 ∧
      (reminder_cancel { st with store := s2 } author rid).message =
        "Could not delete any reminders with that ID." := by
    intro s2 h2
    have hkept : s2.rows.filter
        (fun r => !(rowMatchesCancel rid author r)) = s2.rows :=
      List.filter_eq_self.mpr (fun r hr => by simp [h2 r hr])
    constructor <;> simp [reminder_cancel, hkept]
  refine ⟨?_, (key _ hsnd).1, (key _ hsnd).2⟩
  intro h
  have hkept : st.store.rows.filter
      (fun r => !(rowMatchesCancel rid author r)) = st.store.rows :=
    List.filter_eq_self.mpr (fun r hr => by simp [h r hr])
  simp [reminder_cancel, hkept]

/-- Closed instance of `C7_cancel_missing`: cancelling id 99, which no row
carries, changes nothing and reports failure. -/
theorem C7_cancel_missing_witness :
    reminder_cancel exStW "7" 99 =
      { store := exStW.store, deletedCount := 0,
        message := "Could not delete any reminders with that ID.",
        restarted := false } :=
  (C7_cancel_missing exStW "7" 99).1 (by decide)

/-- C8 counterexample: a candidate exactly due (`expires = now`, remaining
time 0, not positive) still makes the loop issue a sleep — of zero seconds —
because the source guard is `timer.expires >= now`, refuting the claim that
the loop sleeps only when the remaining time is positive. -/
theorem C8_counterexample :
    (dispatchStep exStoreTie 7 exDue).1 =
      [Action.sleep 0, Action.deleteRow (some 5),
       Action.publish "reminder_timer_complete" exDue] ∧
    exDue.expires - 7 = 0 := by
  decide

/-- C8 (amended): the loop skips the sleep entirely and dispatches the
candidate immediately exactly when its deadline lies strictly in the past;
when `expires ≥ now` it first sleeps for exactly the remaining
`expires - now` seconds — a zero-duration sleep when the candidate is exactly
due — and then dispatches. -/
theorem C8_amended (s : Store) (now : Int) (t : Timer) :
    (t.expires < now → (dispatchStep s now t).1 = (call_timer s t).2) ∧
    (now ≤ t.expires →
      (dispatchStep s now t).1 =
        Action.sleep (t.expires - now) :: (call_timer s t).2) := by
  constructor
  · intro h
    have hn : ¬ (t.expires ≥ now) := by omega
    simp [dispatchStep, hn]
  · intro h
    have hy : t.expires ≥ now := h
    simp [dispatchStep, hy]

/-- Closed instance of `C8_amended`: an overdue candidate is dispatched with
no sleep action at all. -/
theorem C8_amended_witness :
    (dispatchStep exStoreTie 9 exDue).1 = (call_timer exStoreTie exDue).2 :=
  (C8_amended exStoreTie 9 exDue).1 (by decide)

/-- C9: a `create_timer` call whose deadline is at or before the current
time (delay ≤ 0, hence ≤ 60) is routed to the short-circuit path: the
scheduler state — in particular the store — is unchanged, the returned
handle has `id = None`, and a fire-and-forget task is spawned instead of a
row being persisted. -/
theorem C9_due_deadline_ephemeral (st : SchedState) (now whenT : Int)
    (event : String) (args : List Value) (kwargs0 : List (String × Value))
    (hdue : whenT ≤ now) :
    (create_timer st now whenT event args kwargs0).state = st ∧
    (create_timer st now whenT event args kwargs0).returned.id = none ∧
    (create_timer st now whenT event args kwargs0).spawned.isSome = true := by
  have hshort : whenT - now ≤ 60 := by omega
  simp [create_timer, hshort, Timer.temporary]

/-- Closed instance of `C9_due_deadline_ephemeral` for an already-past
deadline. -/
theorem C9_due_deadline_ephemeral_witness :
    (create_timer exStW 0 (-5) "reminder" [] []).state = exStW ∧
    (create_timer exStW 0 (-5) "reminder" [] []).returned.id = none ∧
    (create_timer exStW 0 (-5) "reminder" [] []).spawned.isSome = true :=
  C9_due_deadline_ephemeral exStW 0 (-5) "reminder" [] [] (by decide)

/-- A pair keyed `k` never survives `popKw k`. -/
theorem popKw_not_mem (k : String) (kwargs : List (String × Value))
    (v : Value) : (k, v) ∉ popKw k kwargs := by
  simp [popKw, List.mem_filter]

/-- `popKw k` keeps every pair with a different key untouched. -/
theorem popKw_mem_iff (k : String) (kwargs : List (String × Value))
    (p : String × Value) (h : p.1 ≠ k) :
    p ∈ popKw k kwargs ↔ p ∈ kwargs := by
  simp [popKw, List.mem_filter, h]

/-- The handle `create_timer` returns carries the kwargs with `connection`
popped, on both the short-circuit and the persisted path. -/
theorem create_timer_returned_kwargs (st : SchedState) (now whenT : Int)
    (event : String) (args : List Value) (kwargs0 : List (String × Value)) :
    (create_timer st now whenT event args kwargs0).returned.kwargs =
      popKw "connection" kwargs0 := by
  unfold create_timer
  by_cases hd : whenT - now ≤ 60 <;> simp [hd, Timer.temporary]

/-- The connection `create_timer` hands to the insert is the value popped
from the `connection` keyword argument (with `none` meaning the default
`bot.pool`), on both paths. -/
theorem create_timer_usedConnection (st : SchedState) (now whenT : Int)
    (event : String) (args : List Value) (kwargs0 : List (String × Value)) :
    (create_timer st now whenT event args kwargs0).usedConnection =
      lookupKw "connection" kwargs0 := by
  unfold create_timer
  by_cases hd : whenT - now ≤ 60 <;> simp [hd]

/-- Any row `create_timer` adds to the store carries the kwargs with
`connection` popped. -/
theorem create_timer_new_rows (st : SchedState) (now whenT : Int)
    (event : String) (args : List Value) (kwargs0 : List (String × Value)) :
    ∀ r ∈ (create_timer st now whenT event args kwargs0).state.store.rows,
      r ∉ st.store.rows → r.kwargs = popKw "connection" kwargs0 := by
  unfold create_timer
  by_cases hd : whenT - now ≤ 60
  · simp only [hd, if_true]
    intro r hr hnr
    exact absurd hr hnr
  · simp only [hd, if_false, Store.insert]
    intro r hr hnr
    rcases List.mem_append.mp hr with h1 | h2
    · exact absurd h1 hnr
    · rw [List.mem_singleton.mp h2]

/-- C10: every `create_timer` call removes the keyword argument named
`connection` from the payload before the Timer is built: the connection used
for the insert is exactly the value found under that key in the original
kwargs (default pool when absent), no pair keyed `connection` appears in the
returned handle's kwargs, every other keyword argument passes through
unchanged, and every row the call persists carries exactly the same popped
kwargs — so `connection` is never persisted nor delivered to the
`{event}_timer_complete` consumer. -/
theorem C10_connection_popped (st : SchedState) (now whenT : Int)
    (event : String) (args : List Value) (kwargs0 : List (String × Value)) :
    (create_timer st now whenT event args kwargs0).usedConnection =
      lookupKw "connection" kwargs0 ∧
    (∀ v : Value, ("connection", v) ∉
      (create_timer st now whenT event args kwargs0).returned.kwargs) ∧
    (∀ p : String × Value, p.1 ≠ "connection" →
      (p ∈ (create_timer st now whenT event args kwargs0).returned.kwargs ↔
        p ∈ kwargs0)) ∧
    (∀ r ∈ (create_timer st now whenT event args kwargs0).state.store.rows,
      r ∉ st.store.rows →
        r.kwargs =
          (create_timer st now whenT event args kwargs0).returned.kwargs) := by
  refine ⟨create_timer_usedConnection st now whenT event args kwargs0,
    ?_, ?_, ?_⟩
  · intro v
    rw [create_timer_returned_kwargs]
    exact popKw_not_mem "connection" kwargs0 v
  · intro p hp
    rw [create_timer_returned_kwargs]
    exact popKw_mem_iff "connection" kwargs0 p hp
  · intro r hr hnr
    rw [create_timer_returned_kwargs]
    exact create_timer_new_rows st now whenT event args kwargs0 r hr hnr

/-- Concrete kwargs for the C10 witness: a connection plus one ordinary
keyword argument. -/
def exKw : List (String × Value) :=
  [("connection", Value.conn 1), ("message_id", Value.int 5)]

/-- Closed instance of `C10_connection_popped`: the ordinary keyword
argument survives the pop unchanged. -/
theorem C10_connection_popped_witness :
    ("message_id", Value.int 5) ∈
        (create_timer exStW 0 30 "reminder" [] exKw).returned.kwargs ↔
      ("message_id", Value.int 5) ∈ exKw :=
  (C10_connection_popped exStW 0 30 "reminder" [] exKw).2.2.1
    ("message_id", Value.int 5) (by decide)

end Fireside
